import Mathlib

/-!
Verification of the Text-Finder search pipeline (src/Text-finder.py).

The Python program is shallowly embedded below:
* the matcher (`re.compile(re.escape(phrase), re.IGNORECASE)` + `pattern.search`)
  becomes a small regex-token model where `re.escape` produces only literal
  tokens, matched case-insensitively;
* the per-file scan loops become explicit recursive functions over line lists;
* filesystem walking (`os.walk`) becomes recursion over an abstract
  directory tree, file reads and PDF-extraction outcomes being supplied by
  the tree / an environment, since actual I/O is outside the logic;
* the result aggregation (`list.sort(key=...)`, a stable sort) becomes
  `List.mergeSort` with the same lexicographic key.
-/

namespace TextFinder

/-! ### Matcher: `re.escape` + `re.IGNORECASE` + `pattern.search` -/

/-- One token of a compiled regular expression, restricted to the fragment
this program can reach: a literal character or the metacharacter `.`
(any). `re.escape` only ever produces literal tokens; `any` exists to
model what an unescaped `.` would have compiled to. -/
inductive PTok where
  | lit (c : Char)
  | any
deriving Repr, DecidableEq

/-- Case-insensitive single-character comparison, modelling `re.IGNORECASE`:
the pattern character and the subject character are compared after
case-folding. -/
def charCI (pc c : Char) : Bool := pc.toLower == c.toLower

/-- Whether the token list matches some prefix of the character list
(the semantics of anchored regex matching at one position). -/
def matchPrefix : List PTok → List Char → Bool
  | [], _ => true
  | _ :: _, [] => false
  | .lit pc :: ps, c :: cs => charCI pc c && matchPrefix ps cs
  | .any :: ps, _ :: cs => matchPrefix ps cs

/-- `pattern.search`: the token list matches at some position of the subject. -/
def reSearch (p : List PTok) : List Char → Bool
  | [] => matchPrefix p []
  | c :: cs => matchPrefix p (c :: cs) || reSearch p cs

/-- `re.escape` followed by compilation: every character of the phrase,
metacharacter or not, becomes a literal token. -/
def reEscape (phrase : List Char) : List PTok := phrase.map PTok.lit

/-- The matcher used by both `search_text_files` (lines 55-56, 95) and
`_search_single_pdf` (lines 112-113, 123):
`re.compile(re.escape(s), re.IGNORECASE)` applied via `pattern.search(line)`. -/
def matchesLine (line phrase : String) : Bool :=
  reSearch (reEscape phrase.data) line.data

theorem matchPrefix_reEscape (p s : List Char) :
    matchPrefix (reEscape p) s = true ↔
      p.map Char.toLower <+: s.map Char.toLower := by
  induction p generalizing s with
  | nil => simp [reEscape, matchPrefix]
  | cons c cs ih =>
    cases s with
    | nil => simp [reEscape, matchPrefix]
    | cons x xs =>
      simp only [reEscape, List.map_cons, matchPrefix, Bool.and_eq_true,
        charCI, beq_iff_eq, List.cons_prefix_cons]
      exact and_congr Iff.rfl (ih xs)

theorem reSearch_reEscape (p s : List Char) :
    reSearch (reEscape p) s = true ↔
      p.map Char.toLower <:+: s.map Char.toLower := by
  induction s with
  | nil =>
    simp only [reSearch, matchPrefix_reEscape, List.map_nil,
      List.prefix_nil, List.infix_nil]
  | cons x xs ih =>
    simp only [reSearch, Bool.or_eq_true, matchPrefix_reEscape, ih,
      List.map_cons, List.infix_cons_iff]

/-- Claim C1: The matcher reports a match on a line `L` for a phrase `P`
iff the case-folded `L` contains the case-folded `P` as a contiguous
substring; since `re.escape` turns every character of `P` (including
regex metacharacters) into a literal token, no pattern-style matching
can occur. -/
theorem matchesLine_iff_ci_substring (line phrase : String) :
    matchesLine line phrase = true ↔
      phrase.data.map Char.toLower <:+: line.data.map Char.toLower :=
  reSearch_reEscape phrase.data line.data

/-! ### Data model: occurrences and diagnostics -/

/-- One matched line, as the Python dictionaries
`{'file_path': ..., ('page_number': ...,) 'line_number': ..., 'line_content': ...}`.
Plain-text occurrences carry no `page_number` key, modelled by `none`;
the fast PDF path stores page `0` (`some 0`); the PyPDF2 fallback stores
the real 1-based page (`some (p+1)`). -/
structure Occurrence where
  file_path : String
  page_number : Option Nat
  line_number : Nat
  line_content : String
deriving Repr, DecidableEq

/-- The diagnostics the program writes to stdout for non-fatal failures,
one constructor per `except` branch / warning message of the source. -/
inductive Diagnostic where
  | textReadError (filepath msg : String)
  | pdftotextMissingWarning (filepath : String)
  | pdftotextProcessError (filepath msg : String)
  | pdfUnexpectedError (filepath msg : String)
  | pypdf2ReadError (filepath : String)
  | pypdf2UnexpectedError (filepath msg : String)
deriving Repr, DecidableEq

/-! ### Result aggregation: `all_results.sort(key=lambda x: (x['file_path'], x.get('page_number', 0), x['line_number']))` -/

/-- `x.get('page_number', 0)`: a missing page number is treated as page 0. -/
def pageKey (o : Occurrence) : Nat := o.page_number.getD 0

/-- Lexicographic order on the Python sort key
`(file_path, page_number-or-0, line_number)`; strings compare as in
Python, lexicographically by code point. -/
def keyLe (a b : Occurrence) : Prop :=
  a.file_path < b.file_path ∨
    (a.file_path = b.file_path ∧
      (pageKey a < pageKey b ∨ (pageKey a = pageKey b ∧ a.line_number ≤ b.line_number)))

instance (a b : Occurrence) : Decidable (keyLe a b) := by
  unfold keyLe
  infer_instance

/-- The sort key comparison as a Bool, as handed to the stable sort. -/
def keyLE (a b : Occurrence) : Bool := decide (keyLe a b)

/-- `all_results = text_file_results + pdf_file_results` followed by the
in-place stable `all_results.sort(key=...)` (Python list.sort is stable;
`List.mergeSort` is the stable sort of the embedding). -/
def aggregate (textResults pdfResults : List Occurrence) : List Occurrence :=
  (textResults ++ pdfResults).mergeSort keyLE

theorem keyLe_trans {a b c : Occurrence} (h1 : keyLe a b) (h2 : keyLe b c) :
    keyLe a c := by
  unfold keyLe at *
  rcases h1 with h1 | ⟨e1, h1⟩ <;> rcases h2 with h2 | ⟨e2, h2⟩
  · exact Or.inl (lt_trans h1 h2)
  · exact Or.inl (e2 ▸ h1)
  · exact Or.inl (e1 ▸ h2)
  · refine Or.inr ⟨e1.trans e2, ?_⟩
    rcases h1 with h1 | ⟨p1, l1⟩ <;> rcases h2 with h2 | ⟨p2, l2⟩
    · exact Or.inl (Nat.lt_trans h1 h2)
    · exact Or.inl (p2 ▸ h1)
    · exact Or.inl (p1 ▸ h2)
    · exact Or.inr ⟨p1.trans p2, Nat.le_trans l1 l2⟩

theorem keyLe_total (a b : Occurrence) : keyLe a b ∨ keyLe b a := by
  unfold keyLe
  rcases lt_trichotomy a.file_path b.file_path with h | h | h
  · exact Or.inl (Or.inl h)
  · rcases Nat.lt_trichotomy (pageKey a) (pageKey b) with hp | hp | hp
    · exact Or.inl (Or.inr ⟨h, Or.inl hp⟩)
    · rcases Nat.le_total a.line_number b.line_number with hl | hl
      · exact Or.inl (Or.inr ⟨h, Or.inr ⟨hp, hl⟩⟩)
      · exact Or.inr (Or.inr ⟨h.symm, Or.inr ⟨hp.symm, hl⟩⟩)
    · exact Or.inr (Or.inr ⟨h.symm, Or.inl hp⟩)
  · exact Or.inr (Or.inl h)

theorem keyLE_trans (a b c : Occurrence) (h1 : keyLE a b) (h2 : keyLE b c) :
    keyLE a c := by
  simp only [keyLE, decide_eq_true_eq] at *
  exact keyLe_trans h1 h2

theorem keyLE_total (a b : Occurrence) : keyLE a b || keyLE b a := by
  simp only [keyLE, Bool.or_eq_true, decide_eq_true_eq]
  exact keyLe_total a b

/-- Claim C2: The aggregated output (text results concatenated with PDF
results, then stably sorted) is totally ordered by the lexicographic key
`(filePath, pageNumber-or-0, lineNumber)`: any earlier element is
key-`≤` any later one, and two tied elements (key-`≤` both ways) keep
their input order. -/
theorem aggregate_sorted_and_stable (t p : List Occurrence) :
    ((aggregate t p).Pairwise keyLe) ∧
      ∀ a b : Occurrence, keyLe a b → keyLe b a → List.Sublist [a, b] (t ++ p) →
        List.Sublist [a, b] (aggregate t p) := by
  constructor
  · have h := @List.sorted_mergeSort Occurrence keyLE keyLE_trans keyLE_total (t ++ p)
    exact h.imp fun hab => by simpa [keyLE, decide_eq_true_eq] using hab
  · intro a b hab _ hsub
    exact List.pair_sublist_mergeSort keyLE_trans keyLE_total
      (by simpa [keyLE, decide_eq_true_eq] using hab) hsub

/-- Witness for C2 at a concrete tie: a text occurrence (no page key,
treated as page 0) and a fast-path PDF occurrence (page 0) of the same
file and line tie on the key and keep their input order. -/
theorem aggregate_sorted_and_stable_witness :
    ((aggregate [⟨"a.txt", none, 1, "x"⟩] [⟨"a.txt", some 0, 1, "y"⟩]).Pairwise keyLe) ∧
      List.Sublist [⟨"a.txt", none, 1, "x"⟩, ⟨"a.txt", some 0, 1, "y"⟩]
        (aggregate [⟨"a.txt", none, 1, "x"⟩] [⟨"a.txt", some 0, 1, "y"⟩]) :=
  ⟨(aggregate_sorted_and_stable _ _).1,
    (aggregate_sorted_and_stable [⟨"a.txt", none, 1, "x"⟩] [⟨"a.txt", some 0, 1, "y"⟩]).2
      ⟨"a.txt", none, 1, "x"⟩ ⟨"a.txt", some 0, 1, "y"⟩
      (by unfold keyLe pageKey; exact Or.inr ⟨rfl, Or.inr ⟨rfl, Nat.le_refl 1⟩⟩)
      (by unfold keyLe pageKey; exact Or.inr ⟨rfl, Or.inr ⟨rfl, Nat.le_refl 1⟩⟩)
      (List.Sublist.refl _)⟩

/-! ### Line splitting and stripping (`str.splitlines`, `str.strip`) -/

/-- Auxiliary for `splitlines`: cut a character list at every newline,
keeping all pieces (including a final empty piece after a trailing
newline); the accumulator holds the current line reversed. -/
def pySplitlinesAux : List Char → List Char → List (List Char)
  | acc, [] => [acc.reverse]
  | acc, '\n' :: rest => acc.reverse :: pySplitlinesAux [] rest
  | acc, c :: rest => pySplitlinesAux (c :: acc) rest

/-- `text.splitlines()`, with `'\n'` as the line boundary: the empty
string gives no lines, and a trailing newline does not produce a
trailing empty line, as in Python. -/
def pySplitlines (s : String) : List String :=
  match s.data with
  | [] => []
  | cs =>
    (if cs.getLast? = some '\n' then (pySplitlinesAux [] cs).dropLast
     else pySplitlinesAux [] cs).map String.mk

/-- The characters `str.strip()` removes (ASCII whitespace). -/
def pyIsSpace (c : Char) : Bool :=
  c == ' ' || c == '\t' || c == '\n' || c == '\r' || c == '\x0b' || c == '\x0c'

/-- `s.strip()`: drop whitespace from both ends. -/
def pyStrip (s : String) : String :=
  ⟨((s.data.dropWhile pyIsSpace).reverse.dropWhile pyIsSpace).reverse⟩

/-! ### The per-line matching loop shared by all three scan paths -/

/-- The loop `for line_idx, line in enumerate(lines, start): if
pattern.search(line): found.append({...})`, with `start` the first line
number handed to `enumerate` (always 1 in the source) and `page` the
page value stored in the dictionary (`none` = no key). -/
def matchOccs (fp : String) (page : Option Nat) (term : String) :
    Nat → List String → List Occurrence
  | _, [] => []
  | n, line :: rest =>
    (if matchesLine line term then [⟨fp, page, n, pyStrip line⟩] else []) ++
      matchOccs fp page term (n + 1) rest

theorem mem_matchOccs {fp : String} {page : Option Nat} {term : String}
    {n : Nat} {lines : List String} {o : Occurrence} :
    o ∈ matchOccs fp page term n lines ↔
      ∃ i, ∃ h : i < lines.length,
        matchesLine (lines.get ⟨i, h⟩) term = true ∧
        o = ⟨fp, page, n + i, pyStrip (lines.get ⟨i, h⟩)⟩ := by
  induction lines generalizing n with
  | nil => simp [matchOccs]
  | cons l rest ih =>
    constructor
    · intro hmem
      rcases List.mem_append.1 hmem with h | h
      · by_cases hml : matchesLine l term = true
        · simp only [hml, if_true, List.mem_singleton] at h
          exact ⟨0, Nat.succ_pos _, by simpa using hml, by simpa using h⟩
        · simp [hml] at h
      · rcases ih.1 h with ⟨i, hi, hm, ho⟩
        refine ⟨i + 1, Nat.succ_lt_succ hi, by simpa using hm, ?_⟩
        rw [ho]
        have hn : n + (i + 1) = n + 1 + i := by omega
        rw [hn]
        rfl
    · rintro ⟨i, hi, hm, ho⟩
      cases i with
      | zero =>
        apply List.mem_append.2 (Or.inl ?_)
        simp only [List.get] at hm ho
        simp [hm, ho]
      | succ j =>
        apply List.mem_append.2 (Or.inr ?_)
        refine ih.2 ⟨j, Nat.lt_of_succ_lt_succ hi, ?_, ?_⟩
        · simpa using hm
        · rw [ho]
          have hn : n + 1 + j = n + (j + 1) := by omega
          rw [hn]
          rfl

theorem matchOccs_fields {fp : String} {page : Option Nat} {term : String}
    {n : Nat} {lines : List String} :
    ∀ o ∈ matchOccs fp page term n lines,
      o.file_path = fp ∧ o.page_number = page ∧ n ≤ o.line_number := by
  intro o ho
  rcases mem_matchOccs.1 ho with ⟨i, h, _, rfl⟩
  exact ⟨rfl, rfl, Nat.le_add_right n i⟩

theorem matchOccs_pairwise {fp : String} {page : Option Nat} {term : String}
    {n : Nat} {lines : List String} :
    (matchOccs fp page term n lines).Pairwise
      (fun a b => a.line_number ≤ b.line_number) := by
  induction lines generalizing n with
  | nil => simp [matchOccs]
  | cons l rest ih =>
    apply List.pairwise_append.2
    refine ⟨?_, ih, ?_⟩
    · by_cases hml : matchesLine l term = true <;> simp [hml]
    · intro a ha b hb
      have hbn := ((matchOccs_fields (n := n + 1)) b hb).2.2
      by_cases hml : matchesLine l term = true <;> simp [hml] at ha
      rw [ha]
      exact Nat.le_trans (Nat.le_succ n) hbn

/-! ### PDF extraction model (`_search_single_pdf`, `search_pdfs`) -/

/-- Outcome of `subprocess.run(['pdftotext', ...])` on one file:
success with its stdout, `FileNotFoundError` (tool not installed),
`subprocess.CalledProcessError`, or any other exception. -/
inductive PdftotextOutcome where
  | ok (stdout : String)
  | toolNotFound
  | processError (msg : String)
  | otherError (msg : String)
deriving Repr, DecidableEq

/-- Outcome of opening the file with `PyPDF2.PdfReader` and extracting
page texts: the per-page `extract_text()` results (`""` standing for an
empty/`None` extraction), a `PyPDF2.errors.PdfReadError` (corrupt or
encrypted file), or any other exception. -/
inductive PyPDF2Outcome where
  | ok (pages : List String)
  | readError
  | otherError (msg : String)
deriving Repr, DecidableEq

/-- What the outside world answers for one PDF file: the two extraction
strategies are I/O and enter the embedding as data. -/
structure PdfEnv where
  pdftotext : PdftotextOutcome
  pypdf2 : PyPDF2Outcome
deriving Repr, DecidableEq

/-- The PyPDF2 fallback loop `for page_num in range(len(reader.pages))`:
page `pidx` (0-based) stores page number `pidx + 1` and line numbers
restarting from 1 on every page; a page whose extracted text is empty is
skipped (`if text:`). -/
def pypdf2OccsAux (fp term : String) : Nat → List String → List Occurrence
  | _, [] => []
  | pidx, pg :: rest =>
    (if pg = "" then [] else matchOccs fp (some (pidx + 1)) term 1 (pySplitlines pg)) ++
      pypdf2OccsAux fp term (pidx + 1) rest

/-- The whole PyPDF2 fallback scan of one file. -/
def pypdf2Occs (fp term : String) (pages : List String) : List Occurrence :=
  pypdf2OccsAux fp term 0 pages

/-- `_search_single_pdf` (lines 106-153): try `pdftotext` over the whole
document (page number recorded as 0, lines numbered 1..N across the
document); on `FileNotFoundError` warn and fall back to PyPDF2; every
failure is converted to diagnostics and an empty/partial occurrence
list, never an exception. -/
def searchSinglePdf (env : PdfEnv) (fp term : String) :
    List Occurrence × List Diagnostic :=
  match env.pdftotext with
  | .ok text =>
      ((if text = "" then [] else matchOccs fp (some 0) term 1 (pySplitlines text)), [])
  | .toolNotFound =>
      match env.pypdf2 with
      | .ok pages =>
          (pypdf2Occs fp term pages, [.pdftotextMissingWarning fp])
      | .readError => ([], [.pdftotextMissingWarning fp, .pypdf2ReadError fp])
      | .otherError msg =>
          ([], [.pdftotextMissingWarning fp, .pypdf2UnexpectedError fp msg])
  | .processError msg => ([], [.pdftotextProcessError fp msg])
  | .otherError msg => ([], [.pdfUnexpectedError fp msg])

/-- `search_pdfs` (lines 155-202): dispatch `_search_single_pdf` per file
and collect occurrences and diagnostics in submission order (the code
iterates `futures` in order); an empty file list returns early. -/
def searchPdfs (envOf : String → PdfEnv) (files : List String) (term : String) :
    List Occurrence × List Diagnostic :=
  if files.isEmpty then ([], [])
  else
    (files.flatMap fun fp => (searchSinglePdf (envOf fp) fp term).1,
     files.flatMap fun fp => (searchSinglePdf (envOf fp) fp term).2)

theorem searchPdfs_eq_flatMap (envOf : String → PdfEnv) (files : List String)
    (term : String) :
    searchPdfs envOf files term =
      (files.flatMap fun fp => (searchSinglePdf (envOf fp) fp term).1,
       files.flatMap fun fp => (searchSinglePdf (envOf fp) fp term).2) := by
  cases files <;> simp [searchPdfs]

theorem mem_pypdf2OccsAux {fp term : String} {k : Nat} {pages : List String}
    {o : Occurrence} :
    o ∈ pypdf2OccsAux fp term k pages ↔
      ∃ p, ∃ hp : p < pages.length, pages.get ⟨p, hp⟩ ≠ "" ∧
        ∃ i, ∃ hi : i < (pySplitlines (pages.get ⟨p, hp⟩)).length,
          matchesLine ((pySplitlines (pages.get ⟨p, hp⟩)).get ⟨i, hi⟩) term = true ∧
          o = ⟨fp, some (k + p + 1), 1 + i,
            pyStrip ((pySplitlines (pages.get ⟨p, hp⟩)).get ⟨i, hi⟩)⟩ := by
  induction pages generalizing k with
  | nil => simp [pypdf2OccsAux]
  | cons pg rest ih =>
    constructor
    · intro hmem
      rcases List.mem_append.1 hmem with h | h
      · by_cases hpg : pg = ""
        · simp [hpg] at h
        · simp only [hpg, if_neg, if_false] at h
          rcases mem_matchOccs.1 h with ⟨i, hi, hm, ho⟩
          exact ⟨0, Nat.succ_pos _, hpg, i, hi, hm, ho⟩
      · rcases ih.1 h with ⟨p, hp, hpg, i, hi, hm, ho⟩
        refine ⟨p + 1, Nat.succ_lt_succ hp, hpg, i, hi, hm, ?_⟩
        rw [ho]
        have hn : k + 1 + p = k + (p + 1) := by omega
        rw [hn]
        rfl
    · rintro ⟨p, hp, hpg, i, hi, hm, ho⟩
      cases p with
      | zero =>
        apply List.mem_append.2 (Or.inl ?_)
        simp only [List.get] at hpg hi hm ho
        rw [if_neg hpg]
        exact mem_matchOccs.2 ⟨i, hi, hm, ho⟩
      | succ q =>
        apply List.mem_append.2 (Or.inr ?_)
        refine ih.2 ⟨q, Nat.lt_of_succ_lt_succ hp, ?_, i, ?_, ?_, ?_⟩
        · simpa using hpg
        · simpa using hi
        · simpa using hm
        · rw [ho]
          have hn : k + (q + 1) = k + 1 + q := by omega
          rw [hn]
          rfl

theorem pypdf2OccsAux_page_bounds {fp term : String} {k : Nat}
    {pages : List String} :
    ∀ o ∈ pypdf2OccsAux fp term k pages,
      o.file_path = fp ∧ 1 ≤ o.line_number ∧
        ∃ p, ∃ _ : p < pages.length, o.page_number = some (k + p + 1) := by
  intro o ho
  rcases mem_pypdf2OccsAux.1 ho with ⟨p, hp, _, i, hi, _, rfl⟩
  exact ⟨rfl, Nat.le_add_right 1 i, p, hp, rfl⟩

theorem pypdf2OccsAux_pairwise {fp term : String} {k : Nat}
    {pages : List String} :
    (pypdf2OccsAux fp term k pages).Pairwise
      (fun a b => a.page_number = b.page_number → a.line_number ≤ b.line_number) := by
  induction pages generalizing k with
  | nil => simp [pypdf2OccsAux]
  | cons pg rest ih =>
    apply List.pairwise_append.2
    refine ⟨?_, ih, ?_⟩
    · by_cases hpg : pg = ""
      · simp [hpg]
      · rw [if_neg hpg]
        exact matchOccs_pairwise.imp fun h => fun _ => h
    · intro a ha b hb _hpage
      exfalso
      have hapage : a.page_number = some (k + 1) := by
        by_cases hpg : pg = ""
        · simp [hpg] at ha
        · rw [if_neg hpg] at ha
          exact (matchOccs_fields a ha).2.1
      rcases (pypdf2OccsAux_page_bounds b hb).2.2 with ⟨p, _, hbpage⟩
      rw [hapage, hbpage] at _hpage
      have := Option.some.inj _hpage
      omega

/-- A PDF environment in which no extraction strategy succeeds, following
the control flow of `_search_single_pdf`: either `pdftotext` is missing
and PyPDF2 raises, or `pdftotext` itself fails on the file (in which
case the code never reaches PyPDF2). -/
def PdfEnv.unreadable (env : PdfEnv) : Prop :=
  (env.pdftotext = .toolNotFound ∧
    (env.pypdf2 = .readError ∨ ∃ m, env.pypdf2 = .otherError m)) ∨
  (∃ m, env.pdftotext = .processError m) ∨ (∃ m, env.pdftotext = .otherError m)

/-- Claim C3: A PDF unreadable by either strategy yields an empty occurrence
list and at least one diagnostic, and removing it from a run leaves the
occurrences of all remaining files unchanged (the run never aborts). -/
theorem unreadable_pdf_soft (env : PdfEnv) (fp term : String)
    (h : PdfEnv.unreadable env) :
    (searchSinglePdf env fp term).1 = [] ∧
    (searchSinglePdf env fp term).2 ≠ [] ∧
    ∀ (envOf : String → PdfEnv) (pre post : List String), envOf fp = env →
      (searchPdfs envOf (pre ++ fp :: post) term).1 =
        (searchPdfs envOf pre term).1 ++ (searchPdfs envOf post term).1 := by
  have hmain : (searchSinglePdf env fp term).1 = [] ∧
      (searchSinglePdf env fp term).2 ≠ [] := by
    rcases h with ⟨ht, hp | ⟨m, hp⟩⟩ | ⟨m, ht⟩ | ⟨m, ht⟩
    · simp [searchSinglePdf, ht, hp]
    · simp [searchSinglePdf, ht, hp]
    · simp [searchSinglePdf, ht]
    · simp [searchSinglePdf, ht]
  refine ⟨hmain.1, hmain.2, ?_⟩
  intro envOf pre post hfp
  rw [searchPdfs_eq_flatMap, searchPdfs_eq_flatMap, searchPdfs_eq_flatMap]
  simp only [List.flatMap_append, List.flatMap_cons]
  rw [hfp, hmain.1]
  simp

/-- Witness for C3: a PDF on which `pdftotext` fails with a process error
contributes nothing, and the sibling files keep their results. -/
theorem unreadable_pdf_soft_witness :
    (searchSinglePdf ⟨.processError "boom", .ok []⟩ "c.pdf" "x").1 = [] ∧
    (searchPdfs (fun _ => ⟨.processError "boom", .ok []⟩)
        (["a.pdf"] ++ "c.pdf" :: ["b.pdf"]) "x").1 =
      (searchPdfs (fun _ => ⟨.processError "boom", .ok []⟩) ["a.pdf"] "x").1 ++
        (searchPdfs (fun _ => ⟨.processError "boom", .ok []⟩) ["b.pdf"] "x").1 :=
  ⟨(unreadable_pdf_soft ⟨.processError "boom", .ok []⟩ "c.pdf" "x"
      (Or.inr (Or.inl ⟨"boom", rfl⟩))).1,
   (unreadable_pdf_soft ⟨.processError "boom", .ok []⟩ "c.pdf" "x"
      (Or.inr (Or.inl ⟨"boom", rfl⟩))).2.2 _ ["a.pdf"] ["b.pdf"] rfl⟩

/-- Claim C4: Fast-path occurrences (pdftotext succeeded) carry page number 0
and a line number `1 + i` for the `i`-th (0-based) line of the whole
extracted document; fallback occurrences (pdftotext missing, PyPDF2
succeeded) carry the real 1-based page number `p + 1` and a line number
`1 + i` restarting on every page. -/
theorem pdf_numbering (env : PdfEnv) (fp term : String) :
    (∀ text, env.pdftotext = .ok text → ∀ o : Occurrence,
      (o ∈ (searchSinglePdf env fp term).1 ↔
        ∃ i, ∃ hi : i < (pySplitlines text).length,
          matchesLine ((pySplitlines text).get ⟨i, hi⟩) term = true ∧
          o = ⟨fp, some 0, 1 + i, pyStrip ((pySplitlines text).get ⟨i, hi⟩)⟩)) ∧
    (∀ pages, env.pdftotext = .toolNotFound → env.pypdf2 = .ok pages →
      ∀ o : Occurrence,
      (o ∈ (searchSinglePdf env fp term).1 ↔
        ∃ p, ∃ hp : p < pages.length, pages.get ⟨p, hp⟩ ≠ "" ∧
          ∃ i, ∃ hi : i < (pySplitlines (pages.get ⟨p, hp⟩)).length,
            matchesLine ((pySplitlines (pages.get ⟨p, hp⟩)).get ⟨i, hi⟩) term = true ∧
            o = ⟨fp, some (p + 1), 1 + i,
              pyStrip ((pySplitlines (pages.get ⟨p, hp⟩)).get ⟨i, hi⟩)⟩)) := by
  obtain ⟨pt, py⟩ := env
  constructor
  · rintro text rfl o
    by_cases htext : text = ""
    · subst htext
      simp [searchSinglePdf, pySplitlines, pySplitlinesAux]
    · simp only [searchSinglePdf, if_neg htext]
      exact mem_matchOccs
  · rintro pages rfl rfl o
    simp only [searchSinglePdf, pypdf2Occs]
    rw [mem_pypdf2OccsAux]
    simp only [Nat.zero_add]

/-- Witness for C4: one fast-path run and one fallback run at concrete
inputs, their occurrences carrying exactly the stated page/line numbers. -/
theorem pdf_numbering_witness :
    (⟨"f.pdf", some 0, 1, "m"⟩ : Occurrence) ∈
      (searchSinglePdf ⟨.ok "m", .ok []⟩ "f.pdf" "m").1 ∧
    (⟨"g.pdf", some 1, 1, "m"⟩ : Occurrence) ∈
      (searchSinglePdf ⟨.toolNotFound, .ok ["m"]⟩ "g.pdf" "m").1 :=
  ⟨((pdf_numbering ⟨.ok "m", .ok []⟩ "f.pdf" "m").1 "m" rfl _).mpr
      ⟨0, by decide, by decide, by decide⟩,
   ((pdf_numbering ⟨.toolNotFound, .ok ["m"]⟩ "g.pdf" "m").2 ["m"] rfl rfl _).mpr
      ⟨0, by decide, by decide, 0, by decide, by decide, by decide⟩⟩

/-- Recognizer of the pdftotext-missing warning among diagnostics. -/
def isMissingWarning : Diagnostic → Bool
  | .pdftotextMissingWarning _ => true
  | _ => false

/-- Claim C5, counterexample: With pdftotext absent and two PDF files
processed, the missing-tool warning is emitted twice in the run — not
exactly once as claimed: the warning is printed inside
`_search_single_pdf` for each file. -/
theorem pdftotext_warning_counterexample :
    ((searchPdfs (fun _ => ⟨.toolNotFound, .ok []⟩) ["a.pdf", "b.pdf"] "x").2.countP
        isMissingWarning) = 2 ∧
    ((searchPdfs (fun _ => ⟨.toolNotFound, .ok []⟩) ["a.pdf", "b.pdf"] "x").2.countP
        isMissingWarning) ≠ 1 := by
  constructor <;> decide

theorem warning_count_aux (envOf : String → PdfEnv) (term : String) :
    ∀ files : List String,
      (∀ fp ∈ files, (envOf fp).pdftotext = .toolNotFound) →
      ((files.flatMap fun fp => (searchSinglePdf (envOf fp) fp term).2).countP
          isMissingWarning) = files.length := by
  intro files
  induction files with
  | nil => simp
  | cons f rest ih =>
    intro h
    have hf := h f (List.mem_cons_self f rest)
    have hcount : ((searchSinglePdf (envOf f) f term).2.countP isMissingWarning) = 1 := by
      cases hpy : (envOf f).pypdf2 <;>
        simp [searchSinglePdf, hf, hpy, isMissingWarning,
          List.countP_cons, List.countP_nil]
    simp only [List.flatMap_cons, List.countP_append, hcount, List.length_cons]
    rw [ih fun fp hfp => h fp (List.mem_cons_of_mem f hfp)]
    omega

/-- Claim C5, amended: When pdftotext is not installed, every PDF file falls
back to the in-process parser and the missing-tool warning is reported
once per PDF file processed (N warnings for N files), not once per run. -/
theorem pdftotext_warning_once_per_file (envOf : String → PdfEnv)
    (files : List String) (term : String)
    (h : ∀ fp ∈ files, (envOf fp).pdftotext = .toolNotFound) :
    ((searchPdfs envOf files term).2.countP isMissingWarning) = files.length ∧
    ∀ fp ∈ files, ∀ pages, (envOf fp).pypdf2 = .ok pages →
      (searchSinglePdf (envOf fp) fp term).1 = pypdf2Occs fp term pages := by
  constructor
  · rw [searchPdfs_eq_flatMap]
    exact warning_count_aux envOf term files h
  · intro fp hfp pages hpg
    simp [searchSinglePdf, h fp hfp, hpg]

/-- Witness for the amended C5: three PDF files, tool absent, three
warnings, and the fallback parser used on each. -/
theorem pdftotext_warning_once_per_file_witness :
    ((searchPdfs (fun _ => ⟨.toolNotFound, .ok ["m"]⟩) ["a.pdf", "b.pdf", "c.pdf"] "x").2.countP
        isMissingWarning) = 3 ∧
    (searchSinglePdf (⟨.toolNotFound, .ok ["m"]⟩ : PdfEnv) "a.pdf" "x").1 =
      pypdf2Occs "a.pdf" "x" ["m"] := by
  have h := pdftotext_warning_once_per_file (fun _ => ⟨.toolNotFound, .ok ["m"]⟩)
    ["a.pdf", "b.pdf", "c.pdf"] "x" (fun _ _ => rfl)
  exact ⟨by simpa using h.1,
    h.2 "a.pdf" (List.mem_cons_self _ _) ["m"] rfl⟩

/-! ### File enumeration (`os.walk` + `os.path.splitext` filtering)

`os.walk` is a standard-library collaborator: the embedding takes its
yielded sequence — one `(root, files)` entry per directory — as input.
The assumption of no concurrent filesystem mutation is rendered by both
enumeration passes consuming the same walk sequence. Reading a file is
likewise I/O: each file entry carries the read outcome. -/

/-- What `open(...).readlines()`-style iteration yields for one file:
its decoded lines (decoding with `errors='ignore'` never fails, but the
open/read itself can raise), or the exception message. -/
abbrev ReadResult := Except String (List String)

/-- One `os.walk` entry: the directory path and its regular files, each
with its read outcome. -/
abbrev WalkEntry := String × List (String × ReadResult)

/-- `os.path.join(root, file_name)` for a relative file name. -/
def pyJoin (root name : String) : String := root ++ "/" ++ name

/-- `s.lower()` (ASCII case folding, as elsewhere in the embedding). -/
def lowerStr (s : String) : String := String.mk (s.data.map Char.toLower)

/-- `os.path.splitext(p)[1]`: the extension including the dot, taken
from the last dot of the basename, except that leading dots of the
basename (as in `.bashrc`) never start an extension. -/
def pySplitextExt (p : String) : String :=
  let base := (p.data.reverse.takeWhile (· ≠ '/')).reverse
  let core := base.dropWhile (· = '.')
  let revTail := core.reverse.takeWhile (· ≠ '.')
  if revTail.length = core.length then "" else String.mk ('.' :: revTail.reverse)

/-- The filter `file_extension.lower() in file_extensions_to_search`. -/
def extMatches (exts : List String) (name : String) : Bool :=
  exts.contains (lowerStr (pySplitextExt name))

/-- The counting pass (lines 64-72): walk everything once, incrementing a
counter for each file whose extension is in the filter. -/
def countPass (walk : List WalkEntry) (exts : List String) : Nat :=
  walk.foldl (fun acc entry =>
    entry.2.foldl (fun a f => if extMatches exts f.1 then a + 1 else a) acc) 0

/-- The streaming pass (lines 78-85): walk again, yielding the joined
path (and read outcome) of each file whose extension is in the filter. -/
def streamPass (walk : List WalkEntry) (exts : List String) :
    List (String × ReadResult) :=
  walk.flatMap fun entry =>
    entry.2.filterMap fun f =>
      if extMatches exts f.1 then some (pyJoin entry.1 f.1, f.2) else none

/-- The PDF enumeration of `search_pdfs` (lines 176-179):
`file_name.lower().endswith(".pdf")`. -/
def pdfFiles (walk : List WalkEntry) : List String :=
  walk.flatMap fun entry =>
    entry.2.filterMap fun f =>
      if List.isSuffixOf ".pdf".data (lowerStr f.1).data
      then some (pyJoin entry.1 f.1) else none

theorem countPass_inner (exts : List String) (root : String)
    (files : List (String × ReadResult)) :
    ∀ acc : Nat,
      files.foldl (fun a f => if extMatches exts f.1 then a + 1 else a) acc =
        acc + (files.filterMap fun f =>
          if extMatches exts f.1 then some (pyJoin root f.1, f.2) else none).length := by
  induction files with
  | nil => simp
  | cons f rest ih =>
    intro acc
    by_cases hf : extMatches exts f.1
    case pos => simp [hf, ih]; omega
    case neg => simp [hf, ih]

theorem countPass_go (exts : List String) (walk : List WalkEntry) :
    ∀ acc : Nat,
      walk.foldl (fun acc entry =>
        entry.2.foldl (fun a f => if extMatches exts f.1 then a + 1 else a) acc) acc =
        acc + (streamPass walk exts).length := by
  induction walk with
  | nil => simp [streamPass]
  | cons e rest ih =>
    intro acc
    simp only [List.foldl_cons]
    rw [ih, countPass_inner exts e.1 e.2 acc]
    simp only [streamPass, List.flatMap_cons, List.length_append]
    omega

/-- Claim C6: On the same walk sequence (no concurrent mutation) with the
same extension filter, the counting pass and the streaming pass agree:
the total announced before searching equals the number of files the
streaming pass actually yields — the two passes select the same files. -/
theorem countPass_eq_streamPass_length (walk : List WalkEntry)
    (exts : List String) :
    countPass walk exts = (streamPass walk exts).length := by
  unfold countPass
  simpa using countPass_go exts walk 0

/-! ### The plain-text pipeline (`search_text_files`) -/

/-- The per-file body of the streaming loop (lines 92-100): on a
successful read, run the matching loop over the lines with 1-based
numbering and no page key; on any exception, report a diagnostic and
contribute nothing. -/
def searchTextFile (fp : String) (content : ReadResult) (term : String) :
    List Occurrence × List Diagnostic :=
  match content with
  | .ok lines => (matchOccs fp none term 1 lines, [])
  | .error e => ([], [.textReadError fp e])

/-- `search_text_files` (lines 40-104): count, return early when no file
matches the filter, then scan every streamed file in order. -/
def searchTextFiles (walk : List WalkEntry) (term : String)
    (exts : List String) : List Occurrence × List Diagnostic :=
  if countPass walk exts = 0 then ([], [])
  else
    ((streamPass walk exts).flatMap fun f => (searchTextFile f.1 f.2 term).1,
     (streamPass walk exts).flatMap fun f => (searchTextFile f.1 f.2 term).2)

/-- Claim C9: A plain-text file whose read raises contributes zero
occurrences, is reported as a diagnostic, and the pipeline's output on
the remaining files is unaffected. -/
theorem text_read_error_soft (fp e term : String) :
    (searchTextFile fp (.error e) term).1 = [] ∧
    (searchTextFile fp (.error e) term).2 = [Diagnostic.textReadError fp e] ∧
    ∀ pre post : List (String × ReadResult),
      ((pre ++ (fp, Except.error e) :: post).flatMap
          fun f => (searchTextFile f.1 f.2 term).1) =
        (pre.flatMap fun f => (searchTextFile f.1 f.2 term).1) ++
          (post.flatMap fun f => (searchTextFile f.1 f.2 term).1) ∧
      Diagnostic.textReadError fp e ∈
        ((pre ++ (fp, Except.error e) :: post).flatMap
          fun f => (searchTextFile f.1 f.2 term).2) := by
  refine ⟨rfl, rfl, ?_⟩
  intro pre post
  constructor
  · simp [List.flatMap_append, List.flatMap_cons, searchTextFile]
  · refine List.mem_flatMap.2 ⟨(fp, Except.error e), ?_, ?_⟩
    · simp
    · simp [searchTextFile]

theorem searchSinglePdf_fields {env : PdfEnv} {fp term : String} :
    ∀ o ∈ (searchSinglePdf env fp term).1,
      o.file_path = fp ∧ 1 ≤ o.line_number := by
  intro o ho
  cases hpt : env.pdftotext with
  | ok text =>
    simp only [searchSinglePdf, hpt] at ho
    by_cases htext : text = ""
    · simp [htext] at ho
    · rw [if_neg htext] at ho
      have h := matchOccs_fields o ho
      exact ⟨h.1, h.2.2⟩
  | toolNotFound =>
    cases hpy : env.pypdf2 with
    | ok pages =>
      simp only [searchSinglePdf, hpt, hpy, pypdf2Occs] at ho
      have h := pypdf2OccsAux_page_bounds o ho
      exact ⟨h.1, h.2.1⟩
    | readError => simp [searchSinglePdf, hpt, hpy] at ho
    | otherError m => simp [searchSinglePdf, hpt, hpy] at ho
  | processError m => simp [searchSinglePdf, hpt] at ho
  | otherError m => simp [searchSinglePdf, hpt] at ho

theorem searchSinglePdf_pairwise {env : PdfEnv} {fp term : String} :
    ((searchSinglePdf env fp term).1.Pairwise fun a b =>
      a.page_number = b.page_number → a.line_number ≤ b.line_number) := by
  cases hpt : env.pdftotext with
  | ok text =>
    simp only [searchSinglePdf, hpt]
    by_cases htext : text = ""
    · simp [htext]
    · rw [if_neg htext]
      exact matchOccs_pairwise.imp fun h => fun _ => h
  | toolNotFound =>
    cases hpy : env.pypdf2 with
    | ok pages =>
      simp only [searchSinglePdf, hpt, hpy, pypdf2Occs]
      exact pypdf2OccsAux_pairwise
    | readError => simp [searchSinglePdf, hpt, hpy]
    | otherError m => simp [searchSinglePdf, hpt, hpy]
  | processError m => simp [searchSinglePdf, hpt]
  | otherError m => simp [searchSinglePdf, hpt]

/-- Claim C8, counterexample: In the PyPDF2 fallback the per-page line
numbering restarts at 1, so within one file's scan order the line
numbers are not monotonically non-decreasing: a match on line 2 of page
1 is followed by a match on line 1 of page 2. -/
theorem line_monotone_counterexample :
    ¬ (((searchSinglePdf ⟨.toolNotFound, .ok ["a\nm", "m"]⟩ "f.pdf" "m").1.map
        (fun o => o.line_number)).Pairwise fun a b => a ≤ b) := by
  decide

/-- Claim C8, amended: Every occurrence's filePath is a path emitted by the
corresponding enumeration pass (extension filter for text, `.pdf`
suffix for PDFs); line numbers are 1-based; and within a single file's
scan order the line numbers are monotonically non-decreasing among
occurrences sharing the same pageNumber (text and fast-path PDF
occurrences all share one pageNumber per file; the PyPDF2 fallback
restarts numbering on each page, so only the per-page restriction
holds). -/
theorem occurrence_invariants (term : String) :
    (∀ (walk : List WalkEntry) (exts : List String) (o : Occurrence),
      o ∈ (searchTextFiles walk term exts).1 →
        o.file_path ∈ (streamPass walk exts).map Prod.fst) ∧
    (∀ (walk : List WalkEntry) (envOf : String → PdfEnv) (o : Occurrence),
      o ∈ (searchPdfs envOf (pdfFiles walk) term).1 →
        o.file_path ∈ pdfFiles walk) ∧
    (∀ (fp : String) (content : ReadResult) (o : Occurrence),
      o ∈ (searchTextFile fp content term).1 → 1 ≤ o.line_number) ∧
    (∀ (env : PdfEnv) (fp : String) (o : Occurrence),
      o ∈ (searchSinglePdf env fp term).1 → 1 ≤ o.line_number) ∧
    (∀ (fp : String) (content : ReadResult),
      ((searchTextFile fp content term).1.Pairwise fun a b =>
        a.line_number ≤ b.line_number)) ∧
    (∀ (env : PdfEnv) (fp : String),
      ((searchSinglePdf env fp term).1.Pairwise fun a b =>
        a.page_number = b.page_number → a.line_number ≤ b.line_number)) := by
  refine ⟨?_, ?_, ?_, ?_, ?_, ?_⟩
  · intro walk exts o ho
    rw [searchTextFiles] at ho
    by_cases hc : countPass walk exts = 0
    · simp [hc] at ho
    · rw [if_neg hc] at ho
      rcases List.mem_flatMap.1 ho with ⟨f, hf, hof⟩
      cases hread : f.2 with
      | ok lines =>
        rw [hread] at hof
        simp only [searchTextFile] at hof
        have := (matchOccs_fields o hof).1
        rw [this]
        exact List.mem_map.2 ⟨f, hf, rfl⟩
      | error e =>
        rw [hread] at hof
        simp [searchTextFile] at hof
  · intro walk envOf o ho
    rw [searchPdfs_eq_flatMap] at ho
    rcases List.mem_flatMap.1 ho with ⟨fp, hfp, hofp⟩
    rw [(searchSinglePdf_fields o hofp).1]
    exact hfp
  · intro fp content o ho
    cases content with
    | ok lines =>
      simp only [searchTextFile] at ho
      exact (matchOccs_fields o ho).2.2
    | error e => simp [searchTextFile] at ho
  · intro env fp o ho
    exact (searchSinglePdf_fields o ho).2
  · intro fp content
    cases content with
    | ok lines => exact matchOccs_pairwise
    | error e => exact List.Pairwise.nil
  · intro env fp
    exact searchSinglePdf_pairwise

/-- Witness for the amended C8: a one-file text run and a one-file PDF
run, each occurrence's path coming from the respective enumeration. -/
theorem occurrence_invariants_witness :
    (⟨"r/a.txt", none, 1, "hit"⟩ : Occurrence).file_path ∈
      (streamPass [("r", [("a.txt", Except.ok ["hit"])])] [".txt"]).map Prod.fst ∧
    (⟨"r/d.pdf", some 0, 1, "hit"⟩ : Occurrence).file_path ∈
      pdfFiles [("r", [("d.pdf", Except.error "binary")])] :=
  ⟨(occurrence_invariants "hit").1 [("r", [("a.txt", Except.ok ["hit"])])] [".txt"]
      ⟨"r/a.txt", none, 1, "hit"⟩ (by decide),
   (occurrence_invariants "hit").2.1 [("r", [("d.pdf", Except.error "binary")])]
      (fun _ => ⟨.ok "hit", .ok []⟩)
      ⟨"r/d.pdf", some 0, 1, "hit"⟩ (by decide)⟩

/-! ### Reporting (`__main__`, lines 230-252) -/

/-- The extension-to-ANSI-color table `COLOR_MAP`. -/
def COLOR_MAP : List (String × String) :=
  [(".html", "32"), (".htm", "32"), (".css", "34"), (".js", "31"),
   (".py", "36"), (".md", "35"), (".txt", "37"), (".xml", "31"),
   (".json", "31"), (".log", "33"), (".csv", "37"), (".sh", "36"),
   (".yml", "35"), (".yaml", "35"), (".conf", "34"), (".pdf", "33")]

/-- `COLOR_MAP.get(file_extension.lower(), '37')`. -/
def colorOf (ext : String) : String := (COLOR_MAP.lookup ext).getD "37"

/-- `RESET_COLOR = '\033[0m'`. -/
def RESET_COLOR : String := "\x1b[0m"

/-- The ANSI color prefix `f"\033[{color_code}m"`. -/
def escColor (code : String) : String := "\x1b[" ++ code ++ "m"

/-- One printed result line (lines 235-249): the OSC 8 hyperlink whose
visible text is the color-decorated file path. `quote` stands for
`urllib.parse.quote`, a presentation collaborator outside the search
logic. The computed `line_num` and `page_info` of the source are dead
variables: neither reaches the printed string. -/
def renderOccurrence (quote : String → String) (o : Occurrence) : String :=
  "\x1b]8;;file://" ++ quote o.file_path ++ "\x1b\\" ++
    escColor (colorOf (lowerStr (pySplitextExt o.file_path))) ++ o.file_path ++
    RESET_COLOR ++ "\x1b]8;;\\"

/-- The results-section header. -/
def reportHeader : String :=
  "\n--- Files containing the sentence (click to open) ---\n"

/-- The empty-result message. -/
def noMatchesMsg : String :=
  "\nNo files found containing the specified sentence."

/-- The trailing summary `f"\nFound the sentence in {len(all_results)} files."`
(the number printed is the occurrence count, despite the word files). -/
def summaryMsg (n : Nat) : String :=
  "\nFound the sentence in " ++ toString n ++ " files."

/-- The whole reporting block (lines 230-252): if any result exists,
print the header, one hyperlink line per sorted occurrence, and the
summary; otherwise print the no-matches message. -/
def mainReport (quote : String → String) (textResults pdfResults : List Occurrence) :
    List String :=
  if (textResults ++ pdfResults).isEmpty then [noMatchesMsg]
  else
    reportHeader :: ((aggregate textResults pdfResults).map (renderOccurrence quote) ++
      [summaryMsg (aggregate textResults pdfResults).length])

/-- Claim C7, counterexample: Two occurrences that differ in both line
number (5 vs 7) and page number (none vs 3) render to the identical
output line: the printed line does not reference the occurrence's
line/page location (the source computes `line_num` and `page_info` but
never prints them). -/
theorem render_ignores_location_counterexample :
    renderOccurrence id ⟨"a.txt", none, 5, "hello"⟩ =
      renderOccurrence id ⟨"a.txt", some 3, 7, "bye"⟩ ∧ (5 : Nat) ≠ 7 :=
  ⟨rfl, by decide⟩

/-- Claim C7, amended: Each occurrence is rendered as one line referencing
its file path decorated with the extension's display tag (but no
line/page location); the report is the header, one such line per sorted
occurrence, and a trailing summary whose number is the total occurrence
count across all files when results exist, or the explicit no-matches
message when the aggregated sequence is empty. -/
theorem report_structure (quote : String → String) (t p : List Occurrence) :
    (t ++ p = [] → mainReport quote t p = [noMatchesMsg]) ∧
    (t ++ p ≠ [] →
      mainReport quote t p =
        reportHeader :: ((aggregate t p).map (renderOccurrence quote) ++
          [summaryMsg (aggregate t p).length]) ∧
      (aggregate t p).length = (t ++ p).length) ∧
    ∀ o : Occurrence,
      (o.file_path.data <:+: (renderOccurrence quote o).data) ∧
      ((escColor (colorOf (lowerStr (pySplitextExt o.file_path))) ++ o.file_path).data
        <:+: (renderOccurrence quote o).data) := by
  refine ⟨?_, ?_, ?_⟩
  · intro h
    simp [mainReport, h]
  · intro h
    constructor
    · simp [mainReport, List.isEmpty_iff, h]
    · exact (List.mergeSort_perm (t ++ p) keyLE).length_eq
  · intro o
    constructor
    · exact ⟨("\x1b]8;;file://" ++ quote o.file_path ++ "\x1b\\" ++
        escColor (colorOf (lowerStr (pySplitextExt o.file_path)))).data,
        (RESET_COLOR ++ "\x1b]8;;\\").data,
        by simp [renderOccurrence, String.data_append]⟩
    · exact ⟨("\x1b]8;;file://" ++ quote o.file_path ++ "\x1b\\").data,
        (RESET_COLOR ++ "\x1b]8;;\\").data,
        by simp [renderOccurrence, String.data_append]⟩

/-- Witness for the amended C7 at one concrete occurrence. -/
theorem report_structure_witness :
    mainReport id [⟨"a.txt", none, 2, "hit"⟩] [] =
      reportHeader :: ((aggregate [⟨"a.txt", none, 2, "hit"⟩] []).map (renderOccurrence id) ++
        [summaryMsg (aggregate [⟨"a.txt", none, 2, "hit"⟩] []).length]) ∧
    (aggregate [⟨"a.txt", none, 2, "hit"⟩] []).length =
      (([⟨"a.txt", none, 2, "hit"⟩] : List Occurrence) ++ []).length :=
  (report_structure id [⟨"a.txt", none, 2, "hit"⟩] []).2.1 (by decide)

/-! ### Input validation (`__main__`, lines 205-220) -/

/-- The three ways the program's top level can go after reading the two
inputs: reject the phrase, reject the directory, or run the search. -/
inductive MainOutcome where
  | errorEmptySentence
  | errorEmptyFolder
  | runSearch
deriving Repr, DecidableEq

/-- The validation chain of `__main__` (lines 216-220):
`if not sentence_to_find.strip(): ... elif not folder_to_search.strip():
... else: <run both pipelines>`. -/
def mainValidate (sentence folder : String) : MainOutcome :=
  if pyStrip sentence = "" then .errorEmptySentence
  else if pyStrip folder = "" then .errorEmptyFolder
  else .runSearch

/-- Claim C10: A phrase that is non-empty but consists only of whitespace
strips to the empty string, so the program reports the empty-phrase
configuration error and performs no search at all. -/
theorem whitespace_sentence_rejected (sentence folder : String)
    (_h1 : sentence ≠ "") (h2 : sentence.data.all pyIsSpace = true) :
    mainValidate sentence folder = .errorEmptySentence ∧
    mainValidate sentence folder ≠ .runSearch := by
  have hdrop : sentence.data.dropWhile pyIsSpace = [] :=
    List.dropWhile_eq_nil_iff.2 fun x hx => by
      exact List.all_eq_true.1 h2 x hx
  have hstrip : pyStrip sentence = "" := by
    simp [pyStrip, hdrop]
  constructor
  · simp [mainValidate, hstrip]
  · simp [mainValidate, hstrip]

/-- Witness for C10: the single-space phrase is rejected before any
search. -/
theorem whitespace_sentence_rejected_witness :
    mainValidate " " "/tmp" = .errorEmptySentence ∧
    mainValidate " " "/tmp" ≠ .runSearch :=
  whitespace_sentence_rejected " " "/tmp" (by decide) (by decide)

end TextFinder
